import Mathlib

/-!
Verification of the pharmacy analytics backend (src/backend/server.py)
against its natural-language specification.

The Python source is shallowly embedded: floats become exact rationals,
dicts keyed by insertion order become association lists, the global
`random` stream becomes an indexed oracle (each draw site gets a unique
counter), and calendar dates become proleptic-Gregorian ordinal day
numbers (an integer; subtracting one UTC day decrements the ordinal by
one, and the YYYY-MM-DD string of a date is determined injectively by
its ordinal, so ordinal equality models date-string equality).
-/

namespace PharmaInsights

/-- Python `int()` applied to a rational: truncation toward zero. -/
def truncQ (q : ℚ) : ℤ :=
  if 0 ≤ q then ⌊q⌋ else ⌈q⌉

/-- Python round-half-to-even on a rational, to the nearest integer
(model of the `round` builtin's tie-breaking on exact values). -/
def rhe (q : ℚ) : ℤ :=
  if q - ⌊q⌋ = 1/2 then (if Even ⌊q⌋ then ⌊q⌋ else ⌊q⌋ + 1) else round q

/-- Python `round(x, 2)`: round to two decimal places. -/
def round2 (q : ℚ) : ℚ :=
  (rhe (q * 100) : ℚ) / 100

/-- A rational that is an exact two-decimal value (an integer number of
hundredths), as every generated `revenue` is. -/
def IsCenti (q : ℚ) : Prop :=
  ∃ n : ℤ, q = (n : ℚ) / 100

/-- Python list slicing `l[:n]` for a possibly negative `n`. -/
def pyTake {α : Type} (l : List α) (n : ℤ) : List α :=
  if 0 ≤ n then l.take n.toNat else l.take ((l.length : ℤ) + n).toNat

/-- Python slice `l[-k:]` (the last `k` elements). -/
def pyTakeLast {α : Type} (l : List α) (k : ℕ) : List α :=
  l.drop (l.length - k)

/-- Python negative indexing `l[-k]` (with default for out of range,
which the source never hits on the guarded paths). -/
def pyIdxNeg {α : Type} [Inhabited α] (l : List α) (k : ℕ) : α :=
  l.getD (l.length - k) default

/-- Insertion-ordered dict update `d[k] = d.get(k, v0) + v`, i.e. add
`v` at key `k`, appending the key if absent (Python dicts preserve
insertion order). -/
def updA {α β : Type} [DecidableEq α] (add : β → β → β) :
    List (α × β) → α → β → List (α × β)
  | [], k, v => [(k, v)]
  | (k', v') :: rest, k, v =>
    if k' = k then (k', add v' v) :: rest else (k', v') :: updA add rest k v

/-- Dict lookup with default `0` values (`daily_data[d]` where the key
is known to be present). -/
def lookupD {α : Type} [DecidableEq α] (l : List (α × ℤ)) (k : α) : ℤ :=
  match l.find? (fun p => p.1 = k) with
  | some p => p.2
  | none => 0

/-- Python truthiness of an optional string parameter (`if drug:`):
`None` and the empty string are falsy. -/
def pyTruthy (s : Option String) : Bool :=
  match s with
  | none => false
  | some d => d ≠ ""

-- ============ Data model ============

/-- One catalog entry of `DRUGS_DATA`. -/
structure Drug where
  name : String
  category : String
  base_price : ℚ
deriving DecidableEq

/-- The fixed 10-drug catalog `DRUGS_DATA` from the source, with the
float prices written as exact rationals. -/
def DRUGS_DATA : List Drug :=
  [⟨"Paracetamol", "Pain Relief", 599/100⟩,
   ⟨"Amoxicillin", "Antibiotics", 1299/100⟩,
   ⟨"Omeprazole", "Digestive", 849/100⟩,
   ⟨"Metformin", "Diabetes", 1599/100⟩,
   ⟨"Lisinopril", "Cardiovascular", 1899/100⟩,
   ⟨"Atorvastatin", "Cardiovascular", 2249/100⟩,
   ⟨"Ibuprofen", "Pain Relief", 699/100⟩,
   ⟨"Ciprofloxacin", "Antibiotics", 1499/100⟩,
   ⟨"Amlodipine", "Cardiovascular", 1699/100⟩,
   ⟨"Gabapentin", "Neurological", 2499/100⟩]

/-- A generated sale row. The random `id` (uuid4) and `created_at`
timestamp carry no information used by any endpoint and are omitted
from the embedding; `date` is the ordinal day number of the row's
`date` string. -/
structure Sale where
  drug_name : String
  category : String
  units_sold : ℤ
  revenue : ℚ
  date : ℤ
deriving DecidableEq

/-- The process-wide random stream, as an oracle indexed by draw site:
`randint c a b` models the `c`-th draw when it is `random.randint(a,b)`
and `uniform c x y` models it when it is `random.uniform(x,y)`. -/
structure RNG where
  randint : ℕ → ℤ → ℤ → ℤ
  uniform : ℕ → ℚ → ℚ → ℚ

/-- The oracle draws within the requested ranges, as Python's `random`
module guarantees. -/
def RNG.Valid (rng : RNG) : Prop :=
  (∀ c a b, a ≤ b → a ≤ rng.randint c a b ∧ rng.randint c a b ≤ b) ∧
  (∀ c x y, x ≤ y → x ≤ rng.uniform c x y ∧ rng.uniform c x y ≤ y)

/-- Python's `date.weekday()` on an ordinal day number: 0 is Monday and
ordinal 1 (0001-01-01) is a Monday, so `weekday = (ordinal - 1) mod 7`;
Mon-Fri is `weekday < 5`. -/
def pyWeekday (d : ℤ) : ℤ :=
  (d - 1) % 7

/-- The row generated for `days_ago` and catalog position `di` inside
`generate_mock_sales_data`, with `base` the ordinal of today's date.
Each row consumes three draws from the stream (`randint(50,200)`,
`uniform(0.7,1.3)`, `uniform(0.9,1.1)`), in row order. -/
def mkSale (rng : RNG) (base : ℤ) (days_ago : ℕ) (di : ℕ) : Sale :=
  let c := 3 * (DRUGS_DATA.length * days_ago + di)
  let drug := DRUGS_DATA.getD di ⟨"", "", 0⟩
  let date : ℤ := base - days_ago
  let base_units := rng.randint c 50 200
  let day_factor : ℚ := if pyWeekday date < 5 then 12/10 else 8/10
  let noise := rng.uniform (c + 1) (7/10) (13/10)
  let units := truncQ ((base_units : ℚ) * day_factor * noise)
  let noise2 := rng.uniform (c + 2) (9/10) (11/10)
  { drug_name := drug.name
    category := drug.category
    units_sold := units
    revenue := round2 ((units : ℚ) * drug.base_price * noise2)
    date := date }

/-- `generate_mock_sales_data`: 180 days (today descending) times the
10 catalog drugs, in that nesting order. -/
def generate_mock_sales_data (rng : RNG) (base : ℤ) : List Sale :=
  (List.range 180).flatMap (fun days_ago =>
    (List.range DRUGS_DATA.length).map (fun di => mkSale rng base days_ago di))

-- ============ Sales endpoints ============

/-- Response of `GET /api/sales`. -/
structure SalesResp where
  sales : List Sale
  total : ℕ
deriving DecidableEq

/-- `get_sales`: slice the freshly generated series to the first
`days * len(DRUGS_DATA)` rows, then filter by drug name
(case-insensitively) when the `drug` query parameter is truthy. -/
def get_sales (rng : RNG) (base : ℤ) (days : ℤ) (drug : Option String) :
    SalesResp :=
  let all_sales := generate_mock_sales_data rng base
  let filtered_sales := pyTake all_sales (days * DRUGS_DATA.length)
  let filtered_sales :=
    if pyTruthy drug then
      filtered_sales.filter
        (fun s => s.drug_name.toLower == (drug.getD "").toLower)
    else filtered_sales
  { sales := filtered_sales, total := filtered_sales.length }

/-- Response of `GET /api/sales/metrics`. `top_drugs` and `categories`
entries are (name, revenue, units) triples. -/
structure MetricsResp where
  total_revenue : ℚ
  total_units : ℤ
  avg_daily_demand : ℚ
  top_drugs : List (String × ℚ × ℤ)
  categories : List (String × ℚ × ℤ)
deriving DecidableEq

/-- `recent_sales` of `get_sales_metrics`: the first 30 days of the
freshly generated series. -/
def metricsRecentSales (rng : RNG) (base : ℤ) : List Sale :=
  (generate_mock_sales_data rng base).take (30 * DRUGS_DATA.length)

/-- The `drug_revenues` dict of `get_sales_metrics`. -/
def metricsDrugRevenues (rng : RNG) (base : ℤ) : List (String × ℚ) :=
  (metricsRecentSales rng base).foldl
    (fun acc s => updA (· + ·) acc s.drug_name s.revenue) []

/-- The `drug_units` dict of `get_sales_metrics`. -/
def metricsDrugUnits (rng : RNG) (base : ℤ) : List (String × ℤ) :=
  (metricsRecentSales rng base).foldl
    (fun acc s => updA (· + ·) acc s.drug_name s.units_sold) []

/-- The `category_data` dict of `get_sales_metrics`: per-category
(revenue, units) pairs in insertion order. -/
def metricsCategoryData (rng : RNG) (base : ℤ) : List (String × ℚ × ℤ) :=
  (metricsRecentSales rng base).foldl
    (fun acc s =>
      updA (fun a b : ℚ × ℤ => (a.1 + b.1, a.2 + b.2)) acc s.category
        (s.revenue, s.units_sold)) []

/-- `get_sales_metrics`: aggregate the first 30 days of the generated
series into totals, top-5 drugs by revenue, and a per-category
breakdown (dicts in insertion order; `sorted(..., reverse=True)`
becomes a sort by descending revenue). -/
def get_sales_metrics (rng : RNG) (base : ℤ) : MetricsResp :=
  { total_revenue :=
      round2 (((metricsRecentSales rng base).map Sale.revenue).sum)
    total_units := ((metricsRecentSales rng base).map Sale.units_sold).sum
    avg_daily_demand :=
      round2 (((((metricsRecentSales rng base).map Sale.units_sold).sum) : ℚ) / 30)
    top_drugs :=
      ((List.insertionSort (fun a b : String × ℚ => b.2 ≤ a.2)
          (metricsDrugRevenues rng base)).take 5).map
        (fun p => (p.1, round2 p.2, lookupD (metricsDrugUnits rng base) p.1))
    categories :=
      (metricsCategoryData rng base).map
        (fun p => (p.1, round2 p.2.1, p.2.2)) }

-- ============ Forecast endpoint ============

/-- The `continue` condition of the grouping loops, negated: a sale row
is kept unless a truthy drug filter is set and the lowercased names
disagree. -/
def salePassesFilter (drug : Option String) (s : Sale) : Bool :=
  if pyTruthy drug then s.drug_name.toLower == (drug.getD "").toLower else true

/-- The date-to-units grouping dict built by `get_forecast` (and
`get_sales_trends` for its units): insertion-ordered, one key per
distinct date of the kept rows, each value the sum of their units. -/
def dailyUnits (sales : List Sale) (drug : Option String) : List (ℤ × ℤ) :=
  sales.foldl
    (fun acc s =>
      if salePassesFilter drug s then updA (· + ·) acc s.date s.units_sold
      else acc) []

/-- Index of the first `random` draw made after
`generate_mock_sales_data` has consumed its three draws per row. -/
def FORECAST_DRAW_BASE : ℕ := 3 * (180 * DRUGS_DATA.length)

/-- The mock-forecast JSON body of `GET /api/predict` (no external ML
URL configured). Field names follow the source's response dict;
`model`, `status` and the random ids are constants and omitted. -/
structure ForecastMock where
  historical_dates : List ℤ
  historical_values : List ℤ
  forecast_dates : List ℤ
  predicted : List ℤ
  drug : String
  lower : List ℤ
  upper : List ℤ
deriving DecidableEq

/-- `recent_sales` of `get_forecast`: the first 60 days of the freshly
generated series. -/
def forecastRecentSales (rng : RNG) (base : ℤ) : List Sale :=
  (generate_mock_sales_data rng base).take (60 * DRUGS_DATA.length)

/-- The `daily_data` dict of `get_forecast`. -/
def forecastDailyData (rng : RNG) (base : ℤ) (drug : Option String) :
    List (ℤ × ℤ) :=
  dailyUnits (forecastRecentSales rng base) drug

/-- `sorted_dates` of `get_forecast` (`sorted(daily_data.keys())`; on
distinct integer keys every comparison sort agrees). -/
def forecastSortedDates (rng : RNG) (base : ℤ) (drug : Option String) :
    List ℤ :=
  List.insertionSort (· ≤ ·) ((forecastDailyData rng base drug).map Prod.fst)

/-- `actual_values` of `get_forecast`. -/
def forecastActualValues (rng : RNG) (base : ℤ) (drug : Option String) :
    List ℤ :=
  (forecastSortedDates rng base drug).map
    (fun d => lookupD (forecastDailyData rng base drug) d)

/-- `avg` of `get_forecast`: the 7-day moving average, or the overall
mean (100 when there is no data). -/
def forecastAvg (rng : RNG) (base : ℤ) (drug : Option String) : ℚ :=
  if 7 < (forecastActualValues rng base drug).length then
    ((pyTakeLast (forecastActualValues rng base drug) 7).sum : ℚ) / 7
  else if (forecastActualValues rng base drug).length ≠ 0 then
    ((forecastActualValues rng base drug).sum : ℚ) /
      ((forecastActualValues rng base drug).length : ℚ)
  else 100

/-- `trend` of `get_forecast`. -/
def forecastTrend (rng : RNG) (base : ℤ) (drug : Option String) : ℚ :=
  if 7 < (forecastActualValues rng base drug).length then
    ((pyIdxNeg (forecastActualValues rng base drug) 1 -
      pyIdxNeg (forecastActualValues rng base drug) 7 : ℤ) : ℚ) / 7
  else 0

/-- `last_date` of `get_forecast`. -/
def forecastLastDate (rng : RNG) (base : ℤ) (drug : Option String) : ℤ :=
  if (forecastSortedDates rng base drug).isEmpty then base
  else pyIdxNeg (forecastSortedDates rng base drug) 1

/-- `predicted_values` of `get_forecast`: for `i` in 1..days,
`max(0, int(avg + trend*i + uniform(-avg*0.1, avg*0.1)))`. -/
def forecastPredicted (rng : RNG) (base : ℤ) (drug : Option String)
    (days : ℕ) : List ℤ :=
  (List.range days).map (fun (k : ℕ) =>
    max 0 (truncQ (forecastAvg rng base drug +
      forecastTrend rng base drug * ((k : ℚ) + 1) +
      rng.uniform (FORECAST_DRAW_BASE + k)
        (-(forecastAvg rng base drug * (1/10)))
        (forecastAvg rng base drug * (1/10)))))

/-- The in-process branch of `get_forecast`: group the last 60 days'
units by date, sort dates ascending, derive a 7-day moving average and
trend, and extrapolate `days` noisy predictions with a confidence
band. -/
def get_forecast_mock (rng : RNG) (base : ℤ) (drug : Option String)
    (days : ℕ) : ForecastMock :=
  { historical_dates := pyTakeLast (forecastSortedDates rng base drug) 30
    historical_values := pyTakeLast (forecastActualValues rng base drug) 30
    forecast_dates := (List.range days).map
      (fun k : ℕ => forecastLastDate rng base drug + ((k : ℤ) + 1))
    predicted := forecastPredicted rng base drug days
    drug := if pyTruthy drug then drug.getD "" else "All Drugs"
    lower := (forecastPredicted rng base drug days).map
      (fun v : ℤ => max 0 (truncQ ((v : ℚ) * (85/100))))
    upper := (forecastPredicted rng base drug days).map
      (fun v : ℤ => truncQ ((v : ℚ) * (115/100))) }

/-- A JSON value, for the proxied branch of `GET /api/predict`. -/
inductive Json where
  | str (s : String)
  | num (n : ℤ)
  | obj (fields : List (String × Json))
  | arr (elems : List Json)

/-- The fixed error payload returned when relaying the external ML API
fails for any reason. -/
def forecastProxyError : Json :=
  .obj [("error", .str "Failed to fetch from external ML API"),
        ("status", .str "error")]

/-- The proxied branch of `get_forecast`: the upstream call (request,
status, JSON decoding) either produces a JSON body or fails; the
handler returns normally either way, so the HTTP status is 200 in both
cases, with the upstream body relayed verbatim on success. -/
def get_forecast_proxy (upstream : Except String Json) : ℕ × Json :=
  match upstream with
  | .ok j => (200, j)
  | .error _ => (200, forecastProxyError)

/-- Response of `GET /api/predict`: either the relayed/error proxy body
or the in-process mock forecast. -/
inductive ForecastResp where
  | proxied (status : ℕ) (body : Json)
  | mock (f : ForecastMock)

/-- `get_forecast`: dispatch on `if ML_API_URL:` (truthy) between the
proxy and the in-process mock. -/
def get_forecast (ml_api_url : Option String) (upstream : Except String Json)
    (rng : RNG) (base : ℤ) (drug : Option String) (days : ℕ) : ForecastResp :=
  if pyTruthy ml_api_url then
    let r := get_forecast_proxy upstream
    .proxied r.1 r.2
  else
    .mock (get_forecast_mock rng base drug days)

-- ============ Auth ============

/-- The signing secret (the source's default; an environment override
only renames the constant). -/
def SECRET_KEY : String := "pharma-insights-secret-key-2024"

def ACCESS_TOKEN_EXPIRE_MINUTES : ℤ := 1440

/-- A decoded JWT payload as both callers build it: the optional `sub`
claim and the `exp` timestamp (seconds). -/
structure JwtPayload where
  sub : Option String
  exp : ℤ
deriving DecidableEq

/-- A token string: either a well-formed JWT signed with some key, or
an arbitrary non-JWT string. -/
inductive TokenStr where
  | jwt (payload : JwtPayload) (key : String)
  | malformed (s : String)
deriving DecidableEq

inductive JwtError where
  | badSignature
  | badFormat
  | expired
deriving DecidableEq

/-- Modelled from the spec: `jwt.decode` (PyJWT library code, not under
src/). Per section 4.3 verification fails on a bad signature, a
malformed payload, or expiry, and a token is valid strictly while
`now < exp` (PyJWT raises `ExpiredSignatureError` when `exp <= now`). -/
def jwt_decode (token : TokenStr) (key : String) (now : ℤ) :
    Except JwtError JwtPayload :=
  match token with
  | .malformed _ => .error .badFormat
  | .jwt payload k =>
    if k ≠ key then .error .badSignature
    else if payload.exp ≤ now then .error .expired
    else .ok payload

/-- `create_access_token`: encode the caller's payload (both callers
pass exactly a `sub` claim) plus `exp = now + expires_delta`, defaulting
to 15 minutes when `expires_delta` is absent or falsy, signed with the
process secret. Time is in seconds. -/
def create_access_token (sub : Option String) (expires_delta : Option ℤ)
    (now : ℤ) : TokenStr :=
  let expire :=
    match expires_delta with
    | some d => if d ≠ 0 then now + d else now + 15 * 60
    | none => now + 15 * 60
  .jwt ⟨sub, expire⟩ SECRET_KEY

/-- A user document as registration stores it. -/
structure StoredUser where
  id : String
  email : String
  name : String
  password_hash : String
  created_at : String
deriving DecidableEq

/-- A user document after the projection that drops `_id` and
`password_hash`. -/
structure PublicUser where
  id : String
  email : String
  name : String
  created_at : String
deriving DecidableEq

/-- `db.users.find_one` by email over the user collection. -/
def find_one (users : List StoredUser) (email : String) : Option StoredUser :=
  users.find? (fun u => u.email == email)

/-- The projection applied by `get_current_user`'s lookup. -/
def stripSensitive (u : StoredUser) : PublicUser :=
  ⟨u.id, u.email, u.name, u.created_at⟩

/-- `get_current_user`, the dependency every protected handler resolves
before running; its result is the handler's `current_user`. The
missing-credentials case is modelled from the spec: the `HTTPBearer`
dependency (framework code, not under src/) rejects a request without a
bearer token as Unauthenticated (section 4.4). -/
def get_current_user (users : List StoredUser) (credentials : Option TokenStr)
    (now : ℤ) : Except (ℕ × String) PublicUser :=
  match credentials with
  | none => .error (401, "Not authenticated")
  | some token =>
    match jwt_decode token SECRET_KEY now with
    | .error _ => .error (401, "Invalid token")
    | .ok payload =>
      match payload.sub with
      | none => .error (401, "Invalid token")
      | some email =>
        match find_one users email with
        | none => .error (401, "User not found")
        | some user => .ok (stripSensitive user)

-- ============ Password hashing ============

/-- Modelled from the spec: bcrypt hash strings live in passlib (library
code, not under src/). Per section 4.2 a hash embeds a salt and a
one-way digest of the plaintext; the digest is modelled as an ideal
(collision-free) function of the plaintext. Any other string is
malformed. -/
inductive HashStr where
  | bc (salt : ℕ) (digest : String)
  | malformed (s : String)
deriving DecidableEq

def HashStr.wellFormed : HashStr → Bool
  | .bc _ _ => true
  | .malformed _ => false

/-- Modelled from the spec: `pwd_context.hash` salts and digests the
plaintext (section 4.2); the ideal digest is the plaintext itself. -/
def get_password_hash (salt : ℕ) (password : String) : HashStr :=
  .bc salt password

/-- Modelled from the spec: `pwd_context.verify` recomputes the digest
of the plaintext under the hash's salt and compares; a malformed hash
string verifies to false rather than raising (section 4.2). -/
def verify_password (plain_password : String) (hashed_password : HashStr) :
    Bool :=
  match hashed_password with
  | .bc _ digest => digest == plain_password
  | .malformed _ => false

-- ============ Numeric lemmas ============

theorem truncQ_of_nonneg {q : ℚ} (h : 0 ≤ q) : truncQ q = ⌊q⌋ :=
  if_pos h

theorem truncQ_nonneg {q : ℚ} (h : 0 ≤ q) : 0 ≤ truncQ q := by
  rw [truncQ_of_nonneg h]
  exact Int.floor_nonneg.mpr h

theorem max_zero_truncQ (q : ℚ) : max 0 (truncQ q) = max 0 ⌊q⌋ := by
  unfold truncQ
  split_ifs with h
  · rfl
  · push_neg at h
    rw [max_eq_left (Int.ceil_le.mpr (by exact_mod_cast h.le)),
      max_eq_left (Int.floor_nonpos h.le)]

theorem rhe_intCast (n : ℤ) : rhe (n : ℚ) = n := by
  unfold rhe
  rw [Int.floor_intCast]
  norm_num

theorem round2_isCenti (q : ℚ) : IsCenti (round2 q) :=
  ⟨rhe (q * 100), rfl⟩

theorem IsCenti.round2_eq {q : ℚ} (h : IsCenti q) : round2 q = q := by
  obtain ⟨n, rfl⟩ := h
  unfold round2
  rw [div_mul_cancel₀ _ (by norm_num : (100 : ℚ) ≠ 0), rhe_intCast]

theorem IsCenti.add {q r : ℚ} (hq : IsCenti q) (hr : IsCenti r) :
    IsCenti (q + r) := by
  obtain ⟨n, rfl⟩ := hq
  obtain ⟨m, rfl⟩ := hr
  exact ⟨n + m, by push_cast; ring⟩

theorem isCenti_zero : IsCenti 0 :=
  ⟨0, by norm_num⟩

theorem isCenti_sum {l : List ℚ} (h : ∀ q ∈ l, IsCenti q) : IsCenti l.sum := by
  induction l with
  | nil => simpa using isCenti_zero
  | cons a t ih =>
    rw [List.sum_cons]
    exact (h a (by simp)).add (ih fun q hq => h q (by simp [hq]))

-- ============ updA and fold lemmas ============

section UpdALemmas

variable {α β : Type} [DecidableEq α]

theorem sum_map_updA {γ : Type} [AddCommMonoid γ] (add : β → β → β)
    (f : β → γ) (hf : ∀ b c, f (add b c) = f b + f c) :
    ∀ (acc : List (α × β)) (k : α) (v : β),
      ((updA add acc k v).map (fun p => f p.2)).sum =
        (acc.map (fun p => f p.2)).sum + f v := by
  intro acc
  induction acc with
  | nil => intro k v; simp [updA]
  | cons p rest ih =>
    intro k v
    obtain ⟨k', v'⟩ := p
    by_cases h : k' = k
    · simp [updA, h, hf, add_assoc, add_comm, add_left_comm]
    · simp [updA, h, ih, add_assoc]

theorem forall_snd_updA (add : β → β → β) (P : β → Prop)
    (hadd : ∀ b c, P b → P c → P (add b c)) :
    ∀ (acc : List (α × β)) (k : α) (v : β),
      (∀ p ∈ acc, P p.2) → P v → ∀ p ∈ updA add acc k v, P p.2 := by
  intro acc
  induction acc with
  | nil =>
    intro k v _ hv p hp
    simp [updA] at hp
    simp [hp, hv]
  | cons q rest ih =>
    intro k v hacc hv p hp
    obtain ⟨k', v'⟩ := q
    by_cases h : k' = k
    · simp [updA, h] at hp
      rcases hp with hp | hp
      · simpa [hp] using hadd _ _ (hacc (k', v') (by simp)) hv
      · exact hacc p (by simp [hp])
    · simp [updA, h] at hp
      rcases hp with hp | hp
      · simpa [hp] using hacc (k', v') (by simp)
      · exact ih k v (fun r hr => hacc r (by simp [hr])) hv p hp

theorem mem_map_fst_updA (add : β → β → β) :
    ∀ (acc : List (α × β)) (k : α) (v : β) (k' : α),
      (k' ∈ (updA add acc k v).map Prod.fst ↔
        k' ∈ acc.map Prod.fst ∨ k' = k) := by
  intro acc
  induction acc with
  | nil => intro k v k'; simp [updA]
  | cons p rest ih =>
    intro k v k'
    obtain ⟨a, b⟩ := p
    by_cases h : a = k
    · simp [updA, h]
      tauto
    · simp [updA, h, ih]
      tauto

theorem nodup_map_fst_updA (add : β → β → β) :
    ∀ (acc : List (α × β)) (k : α) (v : β),
      (acc.map Prod.fst).Nodup → ((updA add acc k v).map Prod.fst).Nodup := by
  intro acc
  induction acc with
  | nil => intro k v _; simp [updA]
  | cons p rest ih =>
    intro k v hnd
    obtain ⟨a, b⟩ := p
    rw [List.map_cons, List.nodup_cons] at hnd
    by_cases h : a = k
    · simp only [updA, if_pos h]
      rw [List.map_cons, List.nodup_cons]
      exact ⟨hnd.1, hnd.2⟩
    · simp only [updA, if_neg h]
      rw [List.map_cons, List.nodup_cons]
      refine ⟨fun hmem => ?_, ih k v hnd.2⟩
      rcases (mem_map_fst_updA add rest k v a).mp hmem with hm | hm
      · exact hnd.1 hm
      · exact h hm

theorem lookupD_nil (k : α) : lookupD ([] : List (α × ℤ)) k = 0 :=
  rfl

theorem updA_nil (add : β → β → β) (k : α) (v : β) :
    updA add [] k v = [(k, v)] :=
  rfl

theorem updA_cons (add : β → β → β) (a : α) (b : β) (rest : List (α × β))
    (k : α) (v : β) :
    updA add ((a, b) :: rest) k v =
      if a = k then (a, add b v) :: rest else (a, b) :: updA add rest k v :=
  rfl

theorem lookupD_cons (a : α) (b : ℤ) (rest : List (α × ℤ)) (k' : α) :
    lookupD ((a, b) :: rest) k' = if a = k' then b else lookupD rest k' := by
  by_cases h : a = k'
  · simp [lookupD, List.find?, h]
  · simp [lookupD, List.find?, h]

theorem lookupD_updA :
    ∀ (acc : List (α × ℤ)) (k : α) (v : ℤ) (k' : α),
      lookupD (updA (· + ·) acc k v) k' =
        lookupD acc k' + (if k' = k then v else 0) := by
  intro acc
  induction acc with
  | nil =>
    intro k v k'
    rw [updA_nil, lookupD_cons, lookupD_nil]
    by_cases h : k = k'
    · rw [if_pos h, if_pos (h.symm : k' = k)]
      simp
    · rw [if_neg h, if_neg (fun hh : k' = k => h hh.symm)]
      simp
  | cons p rest ih =>
    intro k v k'
    obtain ⟨a, b⟩ := p
    rw [updA_cons]
    by_cases hak : a = k
    · rw [if_pos hak, lookupD_cons, lookupD_cons]
      by_cases hk' : a = k'
      · rw [if_pos hk', if_pos hk', if_pos ((hk'.symm).trans hak : k' = k)]
      · rw [if_neg hk', if_neg hk',
          if_neg (fun hh : k' = k => hk' (hak.trans hh.symm))]
        simp
    · rw [if_neg hak, lookupD_cons, lookupD_cons, ih]
      by_cases hk' : a = k'
      · rw [if_pos hk', if_pos hk',
          if_neg (fun hh : k' = k => hak (hk'.trans hh)), add_zero]
      · rw [if_neg hk', if_neg hk']

end UpdALemmas

section FoldLemmas

variable {α β σ : Type} [DecidableEq α]

theorem sum_map_foldl_updA {γ : Type} [AddCommMonoid γ] (add : β → β → β)
    (f : β → γ) (hf : ∀ b c, f (add b c) = f b + f c)
    (key : σ → α) (val : σ → β) :
    ∀ (l : List σ) (acc : List (α × β)),
      ((l.foldl (fun a s => updA add a (key s) (val s)) acc).map
          (fun p => f p.2)).sum =
        (acc.map (fun p => f p.2)).sum + (l.map (fun s => f (val s))).sum := by
  intro l
  induction l with
  | nil => intro acc; simp
  | cons s t ih =>
    intro acc
    rw [List.foldl_cons, ih, sum_map_updA add f hf]
    simp [add_assoc]

theorem forall_snd_foldl_updA (add : β → β → β) (P : β → Prop)
    (hadd : ∀ b c, P b → P c → P (add b c)) (key : σ → α) (val : σ → β) :
    ∀ (l : List σ) (acc : List (α × β)),
      (∀ p ∈ acc, P p.2) → (∀ s ∈ l, P (val s)) →
      ∀ p ∈ l.foldl (fun a s => updA add a (key s) (val s)) acc, P p.2 := by
  intro l
  induction l with
  | nil => intro acc hacc _; simpa using hacc
  | cons s t ih =>
    intro acc hacc hl
    rw [List.foldl_cons]
    exact ih _
      (forall_snd_updA add P hadd acc (key s) (val s) hacc (hl s (by simp)))
      (fun x hx => hl x (by simp [hx]))

theorem mem_keys_foldl_updA_if (add : β → β → β) (c : σ → Bool)
    (key : σ → α) (val : σ → β) :
    ∀ (l : List σ) (acc : List (α × β)) (k : α),
      (k ∈ (l.foldl
          (fun a s => if c s then updA add a (key s) (val s) else a)
          acc).map Prod.fst ↔
        k ∈ acc.map Prod.fst ∨ k ∈ (l.filter c).map key) := by
  intro l
  induction l with
  | nil => intro acc k; simp
  | cons s t ih =>
    intro acc k
    rw [List.foldl_cons]
    by_cases hc : c s
    · rw [if_pos hc, ih, mem_map_fst_updA, List.filter_cons_of_pos hc,
        List.map_cons, List.mem_cons]
      tauto
    · rw [if_neg (by simp [hc]), ih,
        List.filter_cons_of_neg (by simp [hc])]

theorem nodup_keys_foldl_updA_if (add : β → β → β) (c : σ → Bool)
    (key : σ → α) (val : σ → β) :
    ∀ (l : List σ) (acc : List (α × β)),
      (acc.map Prod.fst).Nodup →
      ((l.foldl (fun a s => if c s then updA add a (key s) (val s) else a)
          acc).map Prod.fst).Nodup := by
  intro l
  induction l with
  | nil => intro acc hacc; simpa using hacc
  | cons s t ih =>
    intro acc hacc
    rw [List.foldl_cons]
    by_cases hc : c s
    · rw [if_pos hc]
      exact ih _ (nodup_map_fst_updA add acc (key s) (val s) hacc)
    · rw [if_neg (by simp [hc])]
      exact ih _ hacc

theorem lookupD_foldl_updA_if (c : σ → Bool) (key : σ → α) (val : σ → ℤ) :
    ∀ (l : List σ) (acc : List (α × ℤ)) (d : α),
      lookupD (l.foldl
          (fun a s => if c s then updA (· + ·) a (key s) (val s) else a)
          acc) d =
        lookupD acc d +
          (((l.filter c).filter (fun s => key s = d)).map val).sum := by
  intro l
  induction l with
  | nil => intro acc d; simp
  | cons s t ih =>
    intro acc d
    rw [List.foldl_cons]
    by_cases hc : c s
    · rw [if_pos hc, ih, lookupD_updA, List.filter_cons_of_pos hc]
      by_cases hd : key s = d
      · rw [List.filter_cons_of_pos (by simp [hd]), List.map_cons,
          List.sum_cons, if_pos hd.symm]
        ring
      · rw [List.filter_cons_of_neg (by simp [hd]),
          if_neg (fun hh : d = key s => hd hh.symm), add_zero]
    · rw [if_neg (by simp [hc]), ih, List.filter_cons_of_neg (by simp [hc])]

end FoldLemmas

-- ============ Slicing and list lemmas ============

theorem sum_map_constN {τ : Type} (l : List τ) (k : ℕ) :
    (l.map fun _ => k).sum = l.length * k := by
  induction l with
  | nil => simp
  | cons a t ih => simp [ih, Nat.succ_mul, Nat.add_comm]

theorem pyTake_of_nonneg {α : Type} {n : ℤ} (h : 0 ≤ n) (l : List α) :
    pyTake l n = l.take n.toNat :=
  if_pos h

theorem length_pyTake {α : Type} (l : List α) (n : ℤ) :
    ((pyTake l n).length : ℤ) =
      if 0 ≤ n then min n l.length else max 0 ((l.length : ℤ) + n) := by
  unfold pyTake
  split_ifs with h
  · simp [List.length_take]
    omega
  · simp [List.length_take]
    omega

theorem take_flatMap_const {τ : Type} (f : ℕ → List τ) (k : ℕ)
    (hk : ∀ d, (f d).length = k) (n m : ℕ) (h : n ≤ m) :
    ((List.range m).flatMap f).take (n * k) = (List.range n).flatMap f := by
  have hm : m = n + (m - n) := by omega
  rw [hm, List.range_add, List.flatMap_append]
  apply List.take_left'
  rw [List.length_flatMap]
  have hmap : (List.range n).map (List.length ∘ f) =
      (List.range n).map (fun _ => k) :=
    List.map_congr_left (fun a _ => hk a)
  rw [hmap, sum_map_constN]
  simp

theorem filter_flatMap_comm {σ τ : Type} (l : List σ) (f : σ → List τ)
    (p : τ → Bool) :
    (l.flatMap f).filter p = l.flatMap (fun a => (f a).filter p) := by
  induction l with
  | nil => simp
  | cons a t ih => simp [List.flatMap_cons, List.filter_append, ih]

theorem flatMap_singleton_map {σ τ : Type} (l : List σ) (g : σ → τ) :
    (l.flatMap fun a => [g a]) = l.map g := by
  induction l with
  | nil => rfl
  | cons a t ih => simp [List.flatMap_cons, ih]

-- ============ Generator lemmas ============

theorem DRUGS_DATA_length : DRUGS_DATA.length = 10 :=
  rfl

theorem mkSale_drug_name (rng : RNG) (base : ℤ) (d i : ℕ) :
    (mkSale rng base d i).drug_name = (DRUGS_DATA.getD i ⟨"", "", 0⟩).name :=
  rfl

theorem mkSale_category (rng : RNG) (base : ℤ) (d i : ℕ) :
    (mkSale rng base d i).category = (DRUGS_DATA.getD i ⟨"", "", 0⟩).category :=
  rfl

theorem mkSale_date (rng : RNG) (base : ℤ) (d i : ℕ) :
    (mkSale rng base d i).date = base - (d : ℤ) :=
  rfl

theorem mkSale_units_sold (rng : RNG) (base : ℤ) (d i : ℕ) :
    (mkSale rng base d i).units_sold =
      truncQ ((rng.randint (3 * (DRUGS_DATA.length * d + i)) 50 200 : ℚ) *
        (if pyWeekday (base - (d : ℤ)) < 5 then 12/10 else 8/10) *
        rng.uniform (3 * (DRUGS_DATA.length * d + i) + 1) (7/10) (13/10)) :=
  rfl

theorem mkSale_revenue (rng : RNG) (base : ℤ) (d i : ℕ) :
    (mkSale rng base d i).revenue =
      round2 (((mkSale rng base d i).units_sold : ℚ) *
        (DRUGS_DATA.getD i ⟨"", "", 0⟩).base_price *
        rng.uniform (3 * (DRUGS_DATA.length * d + i) + 2) (9/10) (11/10)) :=
  rfl

theorem length_generate (rng : RNG) (base : ℤ) :
    (generate_mock_sales_data rng base).length = 1800 := by
  rw [generate_mock_sales_data, List.length_flatMap]
  have hmap : (List.range 180).map
      (List.length ∘ fun days_ago =>
        (List.range DRUGS_DATA.length).map (fun di => mkSale rng base days_ago di)) =
      (List.range 180).map (fun _ => 10) :=
    List.map_congr_left (fun a _ => by simp [DRUGS_DATA_length])
  rw [hmap, sum_map_constN]
  simp

theorem generate_units_nonneg (rng : RNG) (base : ℤ) (hv : rng.Valid) :
    ∀ s ∈ generate_mock_sales_data rng base, 0 ≤ s.units_sold := by
  intro s hs
  rw [generate_mock_sales_data, List.mem_flatMap] at hs
  obtain ⟨d, _, hs⟩ := hs
  rw [List.mem_map] at hs
  obtain ⟨i, _, rfl⟩ := hs
  rw [mkSale_units_sold]
  apply truncQ_nonneg
  have h1 := (hv.1 (3 * (DRUGS_DATA.length * d + i)) 50 200 (by norm_num)).1
  have h2 := (hv.2 (3 * (DRUGS_DATA.length * d + i) + 1) (7/10) (13/10)
    (by norm_num)).1
  have hb : (0 : ℚ) ≤ (rng.randint (3 * (DRUGS_DATA.length * d + i)) 50 200 : ℚ) := by
    exact_mod_cast le_trans (by norm_num : (0 : ℤ) ≤ 50) h1
  have hf : (0 : ℚ) ≤
      (if pyWeekday (base - (d : ℤ)) < 5 then (12 : ℚ)/10 else 8/10) := by
    split_ifs <;> norm_num
  have hn : (0 : ℚ) ≤
      rng.uniform (3 * (DRUGS_DATA.length * d + i) + 1) (7/10) (13/10) :=
    le_trans (by norm_num) h2
  exact mul_nonneg (mul_nonneg hb hf) hn

theorem generate_revenue_isCenti (rng : RNG) (base : ℤ) :
    ∀ s ∈ generate_mock_sales_data rng base, IsCenti s.revenue := by
  intro s hs
  rw [generate_mock_sales_data, List.mem_flatMap] at hs
  obtain ⟨d, _, hs⟩ := hs
  rw [List.mem_map] at hs
  obtain ⟨i, _, rfl⟩ := hs
  rw [mkSale_revenue]
  exact round2_isCenti _

theorem range_ten_eq : List.range DRUGS_DATA.length = [0, 1, 2, 3, 4, 5, 6, 7, 8, 9] :=
  rfl

theorem filter_dayBlock (rng : RNG) (base : ℤ) (j : ℕ) (hj : j < 10) (d : ℕ) :
    ((List.range DRUGS_DATA.length).map (fun di => mkSale rng base d di)).filter
        (fun s => s.drug_name == (DRUGS_DATA.getD j ⟨"", "", 0⟩).name) =
      [mkSale rng base d j] := by
  rw [range_ten_eq]
  interval_cases j <;>
    simp [List.filter, mkSale_drug_name, DRUGS_DATA]

theorem drugDates_generate (rng : RNG) (base : ℤ) (j : ℕ) (hj : j < 10) :
    ((generate_mock_sales_data rng base).filter
        (fun s => s.drug_name == (DRUGS_DATA.getD j ⟨"", "", 0⟩).name)).map
        Sale.date =
      (List.range 180).map (fun d => base - (d : ℤ)) := by
  rw [generate_mock_sales_data, filter_flatMap_comm]
  have hday := filter_dayBlock rng base j hj
  simp only [hday]
  rw [flatMap_singleton_map, List.map_map]
  rfl

-- ============ A concrete valid random source, for witnesses ============

/-- A concrete oracle that always returns the lower end of the requested
range. -/
def rngW : RNG :=
  ⟨fun _ a _ => a, fun _ x _ => x⟩

theorem rngW_valid : rngW.Valid :=
  ⟨fun _ a _ h => ⟨le_refl a, h⟩, fun _ x _ h => ⟨le_refl x, h⟩⟩

-- ============ C3: mock generator invariant ============

/-- Formalization of C3: one call of the generator yields exactly
`180 * 10 = 1800` rows, every row's `units_sold` is nonnegative, and for
each catalog drug the dates of its rows are exactly today's ordinal
through 179 days prior, in order, with no gaps and no duplicates (the
right-hand list is exactly `[base, base-1, ..., base-179]`). -/
def C3Prop (rng : RNG) (base : ℤ) : Prop :=
  (generate_mock_sales_data rng base).length = 1800 ∧
  (∀ s ∈ generate_mock_sales_data rng base, 0 ≤ s.units_sold) ∧
  (∀ j < DRUGS_DATA.length,
    ((generate_mock_sales_data rng base).filter
        (fun s => s.drug_name == (DRUGS_DATA.getD j ⟨"", "", 0⟩).name)).map
        Sale.date =
      (List.range 180).map (fun d => base - (d : ℤ)))

/-- C3 (confirmed): every call of the sales generator returns exactly
180 x 10 = 1800 rows; every row's units_sold is >= 0; and for each of
the 10 catalog drugs the dates of its rows are exactly today (UTC)
through 179 days prior, with no gaps and no duplicate (drug, date) pair
within one call's output. -/
theorem C3_generator_invariant (rng : RNG) (base : ℤ) (hv : rng.Valid) :
    C3Prop rng base :=
  ⟨length_generate rng base, generate_units_nonneg rng base hv,
    fun j hj => drugDates_generate rng base j (by simpa [DRUGS_DATA_length] using hj)⟩

theorem C3_generator_invariant_witness : rngW.Valid ∧ C3Prop rngW 739000 :=
  ⟨rngW_valid, C3_generator_invariant rngW 739000 rngW_valid⟩

-- ============ C6: metrics additivity ============

/-- Formalization of C6: the reported `total_revenue` equals the sum of
the reported per-category revenues, and the reported `total_units`
equals the sum of the reported per-category units (each reported value
carrying the endpoint's 2-decimal rounding). -/
def C6Prop (rng : RNG) (base : ℤ) : Prop :=
  (get_sales_metrics rng base).total_revenue =
    ((get_sales_metrics rng base).categories.map (fun p => p.2.1)).sum ∧
  (get_sales_metrics rng base).total_units =
    ((get_sales_metrics rng base).categories.map (fun p => p.2.2)).sum

/-- C6 (confirmed): for every generated sales input, the metrics
endpoint's total_revenue equals the sum of the revenues of its
per-category breakdown, and its total_units equals the sum of the
per-category units, with the 2-decimal rounding the endpoint applies to
each reported value. -/
theorem C6_metrics_additivity (rng : RNG) (base : ℤ) : C6Prop rng base := by
  have hrev_proj : (get_sales_metrics rng base).total_revenue =
      round2 (((metricsRecentSales rng base).map Sale.revenue).sum) := rfl
  have hunits_proj : (get_sales_metrics rng base).total_units =
      ((metricsRecentSales rng base).map Sale.units_sold).sum := rfl
  have hcat_proj : (get_sales_metrics rng base).categories =
      (metricsCategoryData rng base).map
        (fun p => (p.1, round2 p.2.1, p.2.2)) := by
    unfold get_sales_metrics
    with_reducible rfl
  have hcent : ∀ s ∈ metricsRecentSales rng base, IsCenti s.revenue := by
    intro s hs
    rw [metricsRecentSales] at hs
    exact generate_revenue_isCenti rng base s (List.mem_of_mem_take hs)
  have hvals : ∀ p ∈ metricsCategoryData rng base, IsCenti p.2.1 := by
    intro p hp
    rw [metricsCategoryData] at hp
    exact forall_snd_foldl_updA _ (fun b => IsCenti b.1)
      (fun b c hb hc => hb.add hc) _ _ _ [] (by simp)
      (fun s hs => hcent s hs) p hp
  have hsumrev : ((metricsCategoryData rng base).map (fun p => p.2.1)).sum =
      ((metricsRecentSales rng base).map Sale.revenue).sum := by
    rw [metricsCategoryData]
    simpa using sum_map_foldl_updA
      (fun a b : ℚ × ℤ => (a.1 + b.1, a.2 + b.2)) (fun b => b.1)
      (fun b c => rfl) (fun s : Sale => s.category)
      (fun s => (s.revenue, s.units_sold)) (metricsRecentSales rng base) []
  have hsumu : ((metricsCategoryData rng base).map (fun p => p.2.2)).sum =
      ((metricsRecentSales rng base).map Sale.units_sold).sum := by
    rw [metricsCategoryData]
    simpa using sum_map_foldl_updA
      (fun a b : ℚ × ℤ => (a.1 + b.1, a.2 + b.2)) (fun b => b.2)
      (fun b c => rfl) (fun s : Sale => s.category)
      (fun s => (s.revenue, s.units_sold)) (metricsRecentSales rng base) []
  constructor
  · rw [hrev_proj, hcat_proj, List.map_map]
    have hcomp : ((fun p : String × ℚ × ℤ => p.2.1) ∘
        (fun p : String × ℚ × ℤ => (p.1, round2 p.2.1, p.2.2))) =
        (fun p : String × ℚ × ℤ => round2 p.2.1) := rfl
    rw [hcomp, List.map_congr_left (fun p hp => (hvals p hp).round2_eq),
      hsumrev]
    exact IsCenti.round2_eq (isCenti_sum (by
      intro q hq
      rw [List.mem_map] at hq
      obtain ⟨s, hs, rfl⟩ := hq
      exact hcent s hs))
  · rw [hunits_proj, hcat_proj, List.map_map]
    have hcomp : ((fun p : String × ℚ × ℤ => p.2.2) ∘
        (fun p : String × ℚ × ℤ => (p.1, round2 p.2.1, p.2.2))) =
        (fun p : String × ℚ × ℤ => p.2.2) := rfl
    rw [hcomp, hsumu]

theorem C6_metrics_additivity_witness : C6Prop rngW 739000 :=
  C6_metrics_additivity rngW 739000

-- ============ C9 and C10: sales slicing ============

/-- The (date, drug name) skeleton of one generated day: today minus
`d`, paired with each catalog name in catalog order. -/
def dayBlockMeta (base : ℤ) (d : ℕ) : List (ℤ × String) :=
  (List.range DRUGS_DATA.length).map
    (fun i => (base - (d : ℤ), (DRUGS_DATA.getD i ⟨"", "", 0⟩).name))

/-- Formalization of C9: with no drug filter and 0 <= days <= 180 the
endpoint returns exactly the first days x 10 rows of the freshly
generated series, i.e. the most recent `days` days in descending
recency with catalog drug order within each day, and reports their
count. -/
def C9Prop (rng : RNG) (base : ℤ) (days : ℤ) : Prop :=
  (get_sales rng base days none).sales =
    (generate_mock_sales_data rng base).take (days.toNat * DRUGS_DATA.length) ∧
  (get_sales rng base days none).sales =
    (List.range days.toNat).flatMap (fun d =>
      (List.range DRUGS_DATA.length).map (fun di => mkSale rng base d di)) ∧
  ((get_sales rng base days none).sales.map (fun s => (s.date, s.drug_name))) =
    (List.range days.toNat).flatMap (dayBlockMeta base) ∧
  (get_sales rng base days none).total = days.toNat * DRUGS_DATA.length

/-- C9 (confirmed): for every authenticated GET /sales with
0 <= days <= 180 and no drug filter, the endpoint returns exactly the
first days x 10 rows of the freshly generated series — the `days` most
recent days, today's rows first and catalog drug order within each day;
in particular days = 7 returns exactly 70 rows. -/
theorem C9_recent_slice (rng : RNG) (base : ℤ) (days : ℤ)
    (h0 : 0 ≤ days) (h180 : days ≤ 180) : C9Prop rng base days := by
  have hsales : (get_sales rng base days none).sales =
      pyTake (generate_mock_sales_data rng base) (days * DRUGS_DATA.length) :=
    rfl
  have htake : pyTake (generate_mock_sales_data rng base)
      (days * DRUGS_DATA.length) =
      (generate_mock_sales_data rng base).take
        (days.toNat * DRUGS_DATA.length) := by
    rw [pyTake_of_nonneg
      (mul_nonneg h0 (by norm_num : (0 : ℤ) ≤ (DRUGS_DATA.length : ℤ)))]
    congr 1
    rw [DRUGS_DATA_length]
    omega
  have hflat : (generate_mock_sales_data rng base).take
      (days.toNat * DRUGS_DATA.length) =
      (List.range days.toNat).flatMap (fun d =>
        (List.range DRUGS_DATA.length).map (fun di => mkSale rng base d di)) := by
    rw [generate_mock_sales_data]
    exact take_flatMap_const _ DRUGS_DATA.length (fun d => by simp)
      days.toNat 180 (by omega)
  have hlen : ((List.range days.toNat).flatMap (fun d =>
      (List.range DRUGS_DATA.length).map (fun di => mkSale rng base d di))).length =
      days.toNat * DRUGS_DATA.length := by
    rw [List.length_flatMap]
    rw [show (List.range days.toNat).map (List.length ∘ fun d =>
        (List.range DRUGS_DATA.length).map (fun di => mkSale rng base d di)) =
        (List.range days.toNat).map (fun _ => DRUGS_DATA.length) from
      List.map_congr_left (fun a _ => by simp)]
    rw [sum_map_constN]
    simp
  refine ⟨hsales.trans htake, hsales.trans (htake.trans hflat), ?_, ?_⟩
  · rw [hsales.trans (htake.trans hflat), List.map_flatMap]
    have hmeta : ∀ d : ℕ,
        (((List.range DRUGS_DATA.length).map (fun di => mkSale rng base d di)).map
          (fun s => (s.date, s.drug_name))) = dayBlockMeta base d := by
      intro d
      rw [List.map_map]
      rfl
    simp only [hmeta]
  · have htotal : (get_sales rng base days none).total =
        (get_sales rng base days none).sales.length := rfl
    rw [htotal, hsales.trans (htake.trans hflat), hlen]

theorem C9_recent_slice_witness :
    ((0 : ℤ) ≤ 7 ∧ (7 : ℤ) ≤ 180) ∧ C9Prop rngW 739000 7 :=
  ⟨⟨by norm_num, by norm_num⟩, C9_recent_slice rngW 739000 7 (by norm_num) (by norm_num)⟩

/-- Formalization of C10: for every integer `days` the slice is total;
the returned row count is min(days x 10, 1800) for days >= 0 and
max(0, 1800 + days x 10) for days < 0, and the reported total matches. -/
def C10Prop (rng : RNG) (base : ℤ) (days : ℤ) : Prop :=
  (((get_sales rng base days none).sales.length : ℤ) =
    if 0 ≤ days then min (days * DRUGS_DATA.length) 1800
    else max 0 (1800 + days * DRUGS_DATA.length)) ∧
  (get_sales rng base days none).total =
    (get_sales rng base days none).sales.length

/-- C10 (confirmed): for every integer days, the GET /sales slice is
total — with no drug filter it returns min(days x 10, 1800) rows when
days >= 0 (days > 180 silently clamps to all 1800 rows), and for
days < 0 Python slice semantics drop rows from the end, returning
max(0, 1800 + days x 10) rows instead of rejecting the input or
raising. -/
theorem C10_days_total (rng : RNG) (base : ℤ) (days : ℤ) :
    C10Prop rng base days := by
  constructor
  · have hsales : (get_sales rng base days none).sales =
        pyTake (generate_mock_sales_data rng base)
          (days * DRUGS_DATA.length) := rfl
    rw [hsales, length_pyTake, length_generate, DRUGS_DATA_length]
    push_cast
    split_ifs <;> omega
  · rfl

theorem C10_days_total_witness : C10Prop rngW 739000 (-3) :=
  C10_days_total rngW 739000 (-3)

-- ============ C1: token round-trip and expiry ============

/-- Formalization of C1: a token issued for subject `e` with the
24-hour ttl both callers use (1440 minutes = 86400 seconds) decodes to
its payload with `sub = e` at any time strictly before issuance + ttl,
and at or after issuance + ttl it fails decoding as expired and the
middleware rejects it with 401. -/
def C1Prop (e : String) (now t : ℤ) (users : List StoredUser) : Prop :=
  (t < now + 86400 →
    jwt_decode (create_access_token (some e)
        (some (ACCESS_TOKEN_EXPIRE_MINUTES * 60)) now) SECRET_KEY t =
      .ok ⟨some e, now + 86400⟩) ∧
  (now + 86400 ≤ t →
    jwt_decode (create_access_token (some e)
        (some (ACCESS_TOKEN_EXPIRE_MINUTES * 60)) now) SECRET_KEY t =
      .error .expired ∧
    get_current_user users
        (some (create_access_token (some e)
          (some (ACCESS_TOKEN_EXPIRE_MINUTES * 60)) now)) t =
      .error (401, "Invalid token"))

/-- C1 (confirmed): for every email e, verifying a token produced by
issuing for subject e with ttl = 1440 minutes (as login and
registration do) yields sub = e when verification happens strictly
before issuance time + ttl, and the same token fails verification with
InvalidToken (rejected as 401) at any time at or after
issuance time + ttl. -/
theorem C1_token_roundtrip (e : String) (now t : ℤ)
    (users : List StoredUser) : C1Prop e now t users := by
  have htok : create_access_token (some e)
      (some (ACCESS_TOKEN_EXPIRE_MINUTES * 60)) now =
      .jwt ⟨some e, now + 86400⟩ SECRET_KEY := by
    unfold create_access_token ACCESS_TOKEN_EXPIRE_MINUTES
    norm_num
  have hdec_ok : t < now + 86400 →
      jwt_decode (TokenStr.jwt ⟨some e, now + 86400⟩ SECRET_KEY)
        SECRET_KEY t = .ok ⟨some e, now + 86400⟩ := by
    intro ht
    simp only [jwt_decode]
    rw [if_neg (fun h => h rfl), if_neg (by omega : ¬(now + 86400 ≤ t))]
  have hdec_exp : now + 86400 ≤ t →
      jwt_decode (TokenStr.jwt ⟨some e, now + 86400⟩ SECRET_KEY)
        SECRET_KEY t = .error .expired := by
    intro ht
    simp only [jwt_decode]
    rw [if_neg (fun h => h rfl), if_pos ht]
  refine ⟨fun ht => ?_, fun ht => ⟨?_, ?_⟩⟩
  · rw [htok]
    exact hdec_ok ht
  · rw [htok]
    exact hdec_exp ht
  · rw [htok]
    simp [get_current_user, hdec_exp ht]

theorem C1_token_roundtrip_witness :
    (3 : ℤ) < 0 + 86400 ∧
    jwt_decode (create_access_token (some "alice@x.com")
        (some (ACCESS_TOKEN_EXPIRE_MINUTES * 60)) 0) SECRET_KEY 3 =
      .ok ⟨some "alice@x.com", 0 + 86400⟩ :=
  ⟨by norm_num, (C1_token_roundtrip "alice@x.com" 0 3 []).1 (by norm_num)⟩

-- ============ C2: authorization middleware contract ============

/-- Formalization of C2: the middleware rejects with 401 when the
bearer token is absent, when decoding fails (bad signature, malformed
token, or expiry), when the payload lacks a `sub` claim, or when no
user record exists for the `sub` email; otherwise it returns exactly
the stored record with the password hash stripped, and a success result
can only arise that way. -/
def C2Prop (users : List StoredUser) (credentials : Option TokenStr)
    (now : ℤ) : Prop :=
  (credentials = none →
    get_current_user users credentials now = .error (401, "Not authenticated")) ∧
  (∀ token, credentials = some token →
    (∀ err, jwt_decode token SECRET_KEY now = .error err →
      get_current_user users credentials now = .error (401, "Invalid token")) ∧
    (∀ payload, jwt_decode token SECRET_KEY now = .ok payload →
      (payload.sub = none →
        get_current_user users credentials now = .error (401, "Invalid token")) ∧
      (∀ email, payload.sub = some email →
        (find_one users email = none →
          get_current_user users credentials now =
            .error (401, "User not found")) ∧
        (∀ u, find_one users email = some u →
          get_current_user users credentials now = .ok (stripSensitive u))))) ∧
  (∀ pu, get_current_user users credentials now = .ok pu →
    ∃ token payload email u, credentials = some token ∧
      jwt_decode token SECRET_KEY now = .ok payload ∧
      payload.sub = some email ∧ find_one users email = some u ∧
      pu = stripSensitive u)

/-- C2 (confirmed): for every protected request, if the Bearer token is
absent, fails signature/format/expiry verification, lacks a sub claim,
or no user record exists for the sub email, the middleware rejects with
401 Unauthenticated; otherwise it returns the stored user record with
the password hash stripped, and this resolved user is what downstream
handlers receive. -/
theorem C2_middleware_contract (users : List StoredUser)
    (credentials : Option TokenStr) (now : ℤ) :
    C2Prop users credentials now := by
  unfold C2Prop
  cases credentials with
  | none =>
    refine ⟨fun _ => rfl, fun token h => by simp at h, fun pu h => ?_⟩
    simp [get_current_user] at h
  | some token =>
    refine ⟨fun h => by simp at h, fun tok htok => ?_, fun pu hpu => ?_⟩
    · have htok' : tok = token := by
        injection htok with h
        exact h.symm
      subst htok'
      refine ⟨fun err herr => ?_, fun payload hok => ?_⟩
      · simp [get_current_user, herr]
      · refine ⟨fun hsub => ?_, fun email hsub => ?_⟩
        · simp [get_current_user, hok, hsub]
        · refine ⟨fun hfind => ?_, fun u hfind => ?_⟩
          · simp [get_current_user, hok, hsub, hfind]
          · simp [get_current_user, hok, hsub, hfind]
    · cases hdec : jwt_decode token SECRET_KEY now with
      | error e => simp [get_current_user, hdec] at hpu
      | ok payload =>
        cases hsub : payload.sub with
        | none => simp [get_current_user, hdec, hsub] at hpu
        | some email =>
          cases hfind : find_one users email with
          | none => simp [get_current_user, hdec, hsub, hfind] at hpu
          | some u =>
            simp [get_current_user, hdec, hsub, hfind] at hpu
            exact ⟨token, payload, email, u, rfl, hdec, hsub, hfind, hpu.symm⟩

/-- A concrete user record for witnesses. -/
def aliceStored : StoredUser :=
  ⟨"id-1", "alice@x.com", "Alice", "bcrypt-hash", "2024-01-01T00:00:00"⟩

theorem C2_middleware_contract_witness :
    C2Prop [aliceStored]
      (some (create_access_token (some "alice@x.com")
        (some (ACCESS_TOKEN_EXPIRE_MINUTES * 60)) 0)) 3 :=
  C2_middleware_contract [aliceStored]
    (some (create_access_token (some "alice@x.com")
      (some (ACCESS_TOKEN_EXPIRE_MINUTES * 60)) 0)) 3

-- ============ C4: password hash round-trip ============

/-- Formalization of C4 over the spec-modelled hashing component:
verification succeeds on the hashing plaintext and fails on any other
plaintext, for every salt. -/
def C4Prop (salt : ℕ) (p q : String) : Prop :=
  verify_password p (get_password_hash salt p) = true ∧
  (p ≠ q → verify_password p (get_password_hash salt q) = false)

/-- C4 (confirmed, spec-modelled hashing): for every plaintext p,
verify(p, hash(p)) returns true; and for every pair of distinct
plaintexts p ≠ q, verify(p, hash(q)) returns false. -/
theorem C4_hash_roundtrip (salt : ℕ) (p q : String) : C4Prop salt p q := by
  constructor
  · simp [verify_password, get_password_hash]
  · intro h
    simp [verify_password, get_password_hash]
    exact fun hq => h hq.symm

theorem C4_hash_roundtrip_witness :
    verify_password "pw123" (get_password_hash 0 "pw123") = true ∧
    verify_password "pw123" (get_password_hash 0 "secret") = false :=
  ⟨(C4_hash_roundtrip 0 "pw123" "secret").1,
   (C4_hash_roundtrip 0 "pw123" "secret").2 (by decide)⟩

-- ============ C5: malformed hash handling ============

/-- C5 (confirmed, spec-modelled hashing): for every plaintext p and
every hash string h that is not well-formed, verify(p, h) returns false
and does not raise (the embedded function is total); password
verification has no other error conditions. -/
theorem C5_malformed_hash (p : String) (h : HashStr)
    (hw : h.wellFormed = false) : verify_password p h = false := by
  cases h with
  | bc salt digest => simp [HashStr.wellFormed] at hw
  | malformed s => rfl

theorem C5_malformed_hash_witness :
    (HashStr.malformed "$2b$zz$oops").wellFormed = false ∧
    verify_password "pw123" (HashStr.malformed "$2b$zz$oops") = false :=
  ⟨rfl, C5_malformed_hash "pw123" (HashStr.malformed "$2b$zz$oops") rfl⟩

-- ============ C8: forecast proxy error handling ============

/-- The fields of a JSON object (empty for non-objects). -/
def Json.objFields : Json → List (String × Json)
  | .obj fields => fields
  | _ => []

/-- Formalization of C8: with a truthy external ML URL the endpoint
returns the proxy result; the proxy's HTTP status is 200 for every
upstream outcome; on upstream success the body is the upstream JSON
verbatim; on any relay failure the body is the fixed payload carrying
status "error" and an error message. -/
def C8Prop (ml_api_url : Option String) (upstream : Except String Json) :
    Prop :=
  pyTruthy ml_api_url = true →
    (∀ rng base drug days,
      get_forecast ml_api_url upstream rng base drug days =
        .proxied (get_forecast_proxy upstream).1 (get_forecast_proxy upstream).2) ∧
    (get_forecast_proxy upstream).1 = 200 ∧
    (∀ j, upstream = .ok j → (get_forecast_proxy upstream).2 = j) ∧
    (∀ m, upstream = .error m →
      (get_forecast_proxy upstream).2 = forecastProxyError ∧
      ("status", Json.str "error") ∈ forecastProxyError.objFields ∧
      ("error", Json.str "Failed to fetch from external ML API") ∈
        forecastProxyError.objFields)

/-- C8 (confirmed): when an external ML URL is configured, the forecast
endpoint relays the upstream JSON response verbatim on success; and for
every relay failure it returns a normal 200 response whose body is an
explicit payload with status "error" (plus an error message), never
propagating the exception or an HTTP error status to the client. -/
theorem C8_forecast_proxy (ml_api_url : Option String)
    (upstream : Except String Json) : C8Prop ml_api_url upstream := by
  intro htruthy
  refine ⟨fun rng base drug days => ?_, ?_, fun j hj => ?_, fun m hm => ?_⟩
  · unfold get_forecast
    rw [if_pos htruthy]
  · cases upstream <;> rfl
  · rw [hj]
    rfl
  · rw [hm]
    refine ⟨rfl, ?_, ?_⟩
    · simp [forecastProxyError, Json.objFields, get_forecast_proxy]
    · simp [forecastProxyError, Json.objFields, get_forecast_proxy]

theorem C8_forecast_proxy_witness :
    pyTruthy (some "http://ml.example/api") = true ∧
    (get_forecast_proxy (Except.error "connection refused" :
      Except String Json)).1 = 200 :=
  ⟨by decide,
   ((C8_forecast_proxy (some "http://ml.example/api")
      (Except.error "connection refused")) (by decide)).2.1⟩

-- ============ C7: mock forecast algorithm ============

/-- Formalization of C7, phrased per the spec over the grouped data:
the sorted date list is strictly ascending and is exactly the distinct
dates of the kept rows of the last 60 generated days; there is one
value per distinct date and the grouping sums units per date; avg and
trend follow the spec formulas keyed on at least 8 distinct dates
existing; for i in 1..days,
predicted[i] = max(0, floor(avg + trend*i + uniform(-avg*0.1, avg*0.1)));
lower[i] = max(0, floor(predicted[i]*0.85)) and
upper[i] = floor(predicted[i]*1.15); and the last 30 days of actuals
are returned alongside. -/
def C7Prop (rng : RNG) (base : ℤ) (drug : Option String) (days : ℕ) :
    Prop :=
  (forecastSortedDates rng base drug).Sorted (· < ·) ∧
  (forecastSortedDates rng base drug).toFinset =
    (((forecastRecentSales rng base).filter (salePassesFilter drug)).map
      Sale.date).toFinset ∧
  (forecastActualValues rng base drug).length =
    (forecastSortedDates rng base drug).length ∧
  (∀ d : ℤ, lookupD (forecastDailyData rng base drug) d =
    ((((forecastRecentSales rng base).filter (salePassesFilter drug)).filter
      (fun s => s.date = d)).map Sale.units_sold).sum) ∧
  forecastAvg rng base drug =
    (if 8 ≤ (forecastSortedDates rng base drug).length then
      ((pyTakeLast (forecastActualValues rng base drug) 7).sum : ℚ) / 7
     else if forecastActualValues rng base drug ≠ [] then
      ((forecastActualValues rng base drug).sum : ℚ) /
        ((forecastActualValues rng base drug).length : ℚ)
     else 100) ∧
  forecastTrend rng base drug =
    (if 8 ≤ (forecastSortedDates rng base drug).length then
      ((pyIdxNeg (forecastActualValues rng base drug) 1 -
        pyIdxNeg (forecastActualValues rng base drug) 7 : ℤ) : ℚ) / 7
     else 0) ∧
  (get_forecast_mock rng base drug days).predicted =
    (List.range days).map (fun (k : ℕ) =>
      max 0 ⌊forecastAvg rng base drug +
        forecastTrend rng base drug * ((k : ℚ) + 1) +
        rng.uniform (FORECAST_DRAW_BASE + k)
          (-(forecastAvg rng base drug * (1/10)))
          (forecastAvg rng base drug * (1/10))⌋) ∧
  (get_forecast_mock rng base drug days).lower =
    (get_forecast_mock rng base drug days).predicted.map
      (fun v : ℤ => max 0 ⌊(v : ℚ) * (85/100)⌋) ∧
  (get_forecast_mock rng base drug days).upper =
    (get_forecast_mock rng base drug days).predicted.map
      (fun v : ℤ => ⌊(v : ℚ) * (115/100)⌋) ∧
  (get_forecast_mock rng base drug days).historical_dates =
    pyTakeLast (forecastSortedDates rng base drug) 30 ∧
  (get_forecast_mock rng base drug days).historical_values =
    pyTakeLast (forecastActualValues rng base drug) 30 ∧
  (get_forecast_mock rng base drug days).predicted.length = days

/-- C7 (confirmed): when no external ML URL is configured, for every
drug filter and horizon days >= 1, the forecast groups the last 60
generated days' units by date, sorts dates ascending, and sets
avg = mean of the last 7 values and
trend = (last value - value 7 back)/7 when at least 8 distinct dates
exist, else avg = mean of all values (100 if none) and trend = 0; then
for i in 1..days,
predicted[i] = max(0, floor(avg + trend*i + uniform(-avg*0.1, avg*0.1))),
with lower[i] = max(0, floor(predicted[i]*0.85)) and
upper[i] = floor(predicted[i]*1.15), returning the last 30 days of
actuals alongside. -/
theorem C7_mock_forecast (rng : RNG) (base : ℤ) (drug : Option String)
    (days : ℕ) (_hdays : 1 ≤ days) : C7Prop rng base drug days := by
  have hkeysnd : ((forecastDailyData rng base drug).map Prod.fst).Nodup := by
    rw [forecastDailyData, dailyUnits]
    exact nodup_keys_foldl_updA_if _ _ _ _ _ [] (by simp)
  have hsortle : (forecastSortedDates rng base drug).Sorted (· ≤ ·) := by
    rw [forecastSortedDates]
    exact List.sorted_insertionSort _ _
  have hnodupD : (forecastSortedDates rng base drug).Nodup := by
    rw [forecastSortedDates]
    exact ((List.perm_insertionSort _ _).nodup_iff).mpr hkeysnd
  have hlen : (forecastActualValues rng base drug).length =
      (forecastSortedDates rng base drug).length := by
    rw [forecastActualValues, List.length_map]
  have hmem : ∀ a : ℤ, a ∈ forecastSortedDates rng base drug ↔
      a ∈ ((forecastRecentSales rng base).filter
        (salePassesFilter drug)).map Sale.date := by
    intro a
    rw [forecastSortedDates, (List.perm_insertionSort _ _).mem_iff,
      forecastDailyData, dailyUnits, mem_keys_foldl_updA_if]
    simp
  have hpred_proj : (get_forecast_mock rng base drug days).predicted =
      forecastPredicted rng base drug days := by
    unfold get_forecast_mock
    with_reducible rfl
  have hnonneg : ∀ v ∈ forecastPredicted rng base drug days, 0 ≤ v := by
    intro v hv
    rw [forecastPredicted, List.mem_map] at hv
    obtain ⟨k, _, rfl⟩ := hv
    exact le_max_left 0 _
  refine ⟨hsortle.lt_of_le hnodupD, ?_, hlen, ?_, ?_, ?_, ?_, ?_, ?_, ?_,
    ?_, ?_⟩
  · exact Finset.ext fun a => by
      simp only [List.mem_toFinset]
      exact hmem a
  · intro d
    rw [forecastDailyData, dailyUnits, lookupD_foldl_updA_if]
    simp [lookupD_nil]
  · unfold forecastAvg
    rw [← hlen]
    exact if_congr (by omega) rfl
      (if_congr (not_congr List.length_eq_zero) rfl rfl)
  · unfold forecastTrend
    rw [← hlen]
    exact if_congr (by omega) rfl rfl
  · rw [hpred_proj, forecastPredicted]
    exact List.map_congr_left (fun k _ => max_zero_truncQ _)
  · rw [show (get_forecast_mock rng base drug days).lower =
      (forecastPredicted rng base drug days).map
        (fun v : ℤ => max 0 (truncQ ((v : ℚ) * (85/100)))) from rfl, hpred_proj]
    exact List.map_congr_left (fun v hv => by
      rw [truncQ_of_nonneg
        (mul_nonneg (by exact_mod_cast hnonneg v hv) (by norm_num))])
  · rw [show (get_forecast_mock rng base drug days).upper =
      (forecastPredicted rng base drug days).map
        (fun v : ℤ => truncQ ((v : ℚ) * (115/100))) from rfl, hpred_proj]
    exact List.map_congr_left (fun v hv => by
      rw [truncQ_of_nonneg
        (mul_nonneg (by exact_mod_cast hnonneg v hv) (by norm_num))])
  · unfold get_forecast_mock
    with_reducible rfl
  · unfold get_forecast_mock
    with_reducible rfl
  · rw [hpred_proj, forecastPredicted, List.length_map, List.length_range]

theorem C7_mock_forecast_witness : 1 ≤ 1 ∧ C7Prop rngW 739000 none 1 :=
  ⟨by norm_num, C7_mock_forecast rngW 739000 none 1 (by norm_num)⟩

end PharmaInsights
